import Mathlib

/-!
Shallow embedding of the shopping-cart programs
(`online_shopping_cart.cpp` and `online_shopping_cart_adv.cpp`).

Prices (C++ `double`) are modelled as exact rationals `ℚ`; machine `int`
fields (`id`, `stock`, quantities, order counters) as `Int` (no claim here
depends on 32-bit overflow).  Thrown `ShopException`s are modelled with
`Except ShopException`; a C++ method that throws before mutating leaves the
object unchanged, which the state-passing style makes explicit by returning
`.error` without a new state.  Console output is ignored.
-/

namespace Shop

/-- Exception carrying a message, as `class ShopException : runtime_error`. -/
structure ShopException where
  msg : String
deriving DecidableEq

/-- Embeds C++ `class Product` — `{int id; string name; double price; int stock}`. -/
structure Product where
  id : Int
  name : String
  price : ℚ
  stock : Int
deriving DecidableEq

/-- Embeds `Product::setPrice(double p)` — throws on `p < 0`, otherwise `price = p`. -/
def Product.setPrice (p : Product) (v : ℚ) : Except ShopException Product :=
  if v < 0 then .error ⟨"Price can't be negative"⟩
  else .ok { p with price := v }

/-- Embeds `Product::setStock(int s)` — throws on `s < 0`, otherwise `stock = s`. -/
def Product.setStock (p : Product) (s : Int) : Except ShopException Product :=
  if s < 0 then .error ⟨"Stock can't be negative"⟩
  else .ok { p with stock := s }

/-- Embeds `Product::reduceStock(int qty)` — returns success flag and the updated
product (both source files have the identical body). -/
def Product.reduceStock (p : Product) (qty : Int) : Bool × Product :=
  if qty ≤ 0 then (false, p)
  else if qty > p.stock then (false, p)
  else (true, { p with stock := p.stock - qty })

/-- Embeds C++ `class CartItem` — holds a copy of a `Product` and a quantity. -/
structure CartItem where
  product : Product
  quantity : Int
deriving DecidableEq

/-- Embeds `CartItem::subtotal()` — `product.getPrice() * quantity`. -/
def CartItem.subtotal (c : CartItem) : ℚ := c.product.price * c.quantity

/-- Embeds C++ `class ShoppingCart` — `vector<CartItem> items`. -/
structure ShoppingCart where
  items : List CartItem
deriving DecidableEq

/-- Embeds `ShoppingCart::addToCart(const Product&, int)` (adv file) and
`ShoppingCart::addItem(Product, int)` (base file): `items.emplace_back(p, qty)`
with no validation of `qty`. -/
def ShoppingCart.addToCart (c : ShoppingCart) (p : Product) (qty : Int) :
    ShoppingCart :=
  { c with items := c.items ++ [⟨p, qty⟩] }

/-- Embeds `ShoppingCart::removeFromCart(int, int)` — the body is empty
(`/* simplified */`). -/
def ShoppingCart.removeFromCart (c : ShoppingCart) (productId qty : Int) :
    ShoppingCart :=
  c

/-- Embeds `ShoppingCart::total()` — sum of item subtotals. -/
def ShoppingCart.total (c : ShoppingCart) : ℚ :=
  (c.items.map CartItem.subtotal).sum

/-- Embeds `ShoppingCart::getItems()` — returns a copy of the item vector. -/
def ShoppingCart.getItems (c : ShoppingCart) : List CartItem := c.items

/-- Embeds `ShoppingCart::clear()` — `items.clear()`. -/
def ShoppingCart.clear (c : ShoppingCart) : ShoppingCart := { c with items := [] }

/-- Embeds `ShoppingCart::empty()` — `items.empty()`. -/
def ShoppingCart.emptyB (c : ShoppingCart) : Bool := c.items.isEmpty

/-- Embeds `CreditCardPayment` (adv file) — card number and name on card. -/
structure CreditCardPayment where
  cardNumber : String
  nameOnCard : String
deriving DecidableEq

/-- Embeds `CreditCardPayment::pay(double)` — fails iff `cardNumber.empty()`. -/
def CreditCardPayment.pay (c : CreditCardPayment) (amount : ℚ) : Bool :=
  if c.cardNumber.isEmpty then false else true

/-- Embeds `PayPalPayment` (adv file) — account email. -/
structure PayPalPayment where
  accountEmail : String
deriving DecidableEq

/-- Embeds `PayPalPayment::pay(double)` — fails iff `accountEmail.empty()`. -/
def PayPalPayment.pay (p : PayPalPayment) (amount : ℚ) : Bool :=
  if p.accountEmail.isEmpty then false else true

/-- Embeds `CardPayment::pay(double)` (base file) — always returns `true`. -/
def CardPayment.pay (amount : ℚ) : Bool := true

/-- Base file `PayPalPayment::pay(double)` — always returns `true`. -/
def PayPalBasicPayment.pay (amount : ℚ) : Bool := true

/-- Embeds C++ `class Inventory` (adv file) — `unordered_map<int, Product> products`.
The map is modelled as a list of products looked up by `id`; the hash map's
unspecified iteration order is accounted for in the theorems by quantifying
over permutations of the stored list. -/
structure Inventory where
  products : List Product
deriving DecidableEq

/-- Embeds `Inventory::addProduct(const Product&)` — `products[p.getId()] = p`,
an upsert keyed on the product id. -/
def Inventory.addProduct (inv : Inventory) (p : Product) : Inventory :=
  if inv.products.any (fun q => q.id == p.id) then
    ⟨inv.products.map (fun q => if q.id == p.id then p else q)⟩
  else
    ⟨inv.products ++ [p]⟩

/-- Embeds `Inventory::hasProduct(int)` — `products.find(id) != products.end()`. -/
def Inventory.hasProduct (inv : Inventory) (id : Int) : Bool :=
  inv.products.any (fun q => q.id == id)

/-- Embeds `Inventory::getProduct(int)` — throws `"Product not found"` when absent,
otherwise returns a copy (`it->second`) of the stored product. -/
def Inventory.getProduct (inv : Inventory) (id : Int) : Except ShopException Product :=
  match inv.products.find? (fun q => q.id == id) with
  | none => .error ⟨"Product not found"⟩
  | some p => .ok p

/-- Embeds `Inventory::reduceStock(int, int)` — absent id yields `false`; otherwise
delegates to `Product::reduceStock` on the stored product. -/
def Inventory.reduceStock (inv : Inventory) (id qty : Int) : Bool × Inventory :=
  match inv.products.find? (fun q => q.id == id) with
  | none => (false, inv)
  | some p =>
      let (ok, p2) := p.reduceStock qty
      (ok, ⟨inv.products.map (fun q => if q.id == id then p2 else q)⟩)

/-- Embeds `Inventory::listAll()` — copies the map's values out and
`sort`s them with the comparator `a.getId() < b.getId()`; `std::sort`
guarantees a permutation of the input that is sorted for the comparator,
which `mergeSort` with the reflexive closure of that comparator delivers. -/
def Inventory.listAll (inv : Inventory) : List Product :=
  inv.products.mergeSort (fun a b => a.id ≤ b.id)

/-- Embeds C++ `class Order` — `{int orderId; vector<CartItem> items; double amount}`,
with `orderId(++nextOrderId)` and `amount` the sum of item subtotals.
The static counter `nextOrderId` is passed and returned explicitly. -/
structure Order where
  orderId : Int
  items : List CartItem
  amount : ℚ
deriving DecidableEq

/-- The `Order` constructor: takes the current static counter (initially `0`
per `int Order::nextOrderId = 0;`), pre-increments it for the new id, and
computes `amount` from the items. Returns the order and the updated counter. -/
def Order.make (nextOrderId : Int) (its : List CartItem) : Order × Int :=
  (⟨nextOrderId + 1, its, (its.map CartItem.subtotal).sum⟩, nextOrderId + 1)

/-- The mutable state the base file's `main` loop threads through its
checkout branch: the cart, the static order counter, and the catalog. -/
structure CheckoutState where
  cart : ShoppingCart
  nextOrderId : Int
  catalog : List Product
deriving DecidableEq

/-- The checkout branch of `main` (`choice==4`): refuse on an empty cart;
otherwise invoke the selected `Payment`'s `pay(cart.total())` (abstracted as
the dispatch function `payFn`); on success build an `Order` from
`cart.getItems()` and `cart.clear()`, on failure do nothing. -/
def checkout (st : CheckoutState) (payFn : ℚ → Bool) :
    Option Order × CheckoutState :=
  if st.cart.emptyB then (none, st)
  else if payFn st.cart.total then
    let (o, n) := Order.make st.nextOrderId st.cart.getItems
    (some o, { st with cart := st.cart.clear, nextOrderId := n })
  else (none, st)

/-- One user interaction step of the `main` loop that touches checkout
state: adding to the cart (menu 2) or attempting a checkout (menu 4).
Other menu entries only print and are omitted. -/
inductive Event where
  | addToCart (p : Product) (q : Int)
  | tryCheckout (payFn : ℚ → Bool)

/-- Run one event, returning the order it produced (if any) and the new state. -/
def stepEvent (st : CheckoutState) : Event → Option Order × CheckoutState
  | .addToCart p q => (none, { st with cart := st.cart.addToCart p q })
  | .tryCheckout payFn => checkout st payFn

/-- Run a whole interaction trace, collecting the orders in construction order. -/
def runEvents (st : CheckoutState) : List Event → List Order × CheckoutState
  | [] => ([], st)
  | e :: es =>
      let (o, st2) := stepEvent st e
      let (os, st3) := runEvents st2 es
      (o.toList ++ os, st3)

/-- The whole program state of the adv file's `main`: the singleton
`Inventory` together with the session's `ShoppingCart`. -/
structure System where
  inv : Inventory
  cart : ShoppingCart
deriving DecidableEq

/-- Embeds `cart.addToCart(inv.getProduct(id), qty)` as in the adv `main`:
the cart stores a copy of the product as it is at add time. -/
def System.addFromInventory (s : System) (id qty : Int) :
    Except ShopException System :=
  match s.inv.getProduct id with
  | .error e => .error e
  | .ok p => .ok { s with cart := s.cart.addToCart p qty }

/-- An `inv.addProduct(p)` performed on the system (upsert, so it can change
the price or stock recorded in the inventory for `p.id`). -/
def System.invAddProduct (s : System) (p : Product) : System :=
  { s with inv := s.inv.addProduct p }

/-- An `inv.reduceStock(id, qty)` performed on the system. -/
def System.invReduceStock (s : System) (id qty : Int) : Bool × System :=
  ((s.inv.reduceStock id qty).1, { s with inv := (s.inv.reduceStock id qty).2 })

/-- A cart built by a sequence of `addToCart` calls starting from an empty
cart (the only cart-growing operation in either source file). -/
def buildCart (adds : List (Product × Int)) : ShoppingCart :=
  adds.foldl (fun c pq => c.addToCart pq.1 pq.2) ⟨[]⟩

/-- The stored products have pairwise distinct ids — the invariant the C++
`unordered_map<int, Product>` keys give for free and `addProduct` preserves. -/
def Inventory.distinctIds (inv : Inventory) : Prop :=
  (inv.products.map Product.id).Nodup

/-- Here `consecutiveFrom c n` is the list `[c, c+1, …, c+n-1]` — the shape the
spec asserts for the order-id sequence (`1, 2, 3, …`). -/
def consecutiveFrom (c : Int) : Nat → List Int
  | 0 => []
  | n + 1 => c :: consecutiveFrom (c + 1) n

end Shop

namespace Shop

/-- Claim C10: `removeFromCart` is a no-op — its C++ body is empty — so the
cart, its total, its items and its emptiness are unchanged by any call. -/
theorem C10_removeFromCart_noop (c : ShoppingCart) (productId qty : Int) :
    c.removeFromCart productId qty = c ∧
    (c.removeFromCart productId qty).total = c.total ∧
    (c.removeFromCart productId qty).getItems = c.getItems ∧
    (c.removeFromCart productId qty).emptyB = c.emptyB :=
  ⟨rfl, rfl, rfl, rfl⟩

/-- Claim C1: `reduceStock qty` succeeds and decreases stock by exactly `qty`
when `0 < qty ≤ stock`, and otherwise reports failure with the product
unchanged (the function is total — no exception path exists). -/
theorem C1_reduceStock_spec (p : Product) (qty : Int) :
    (0 < qty → qty ≤ p.stock →
      p.reduceStock qty = (true, { p with stock := p.stock - qty })) ∧
    (qty ≤ 0 ∨ p.stock < qty → p.reduceStock qty = (false, p)) := by
  unfold Product.reduceStock
  refine ⟨fun h1 h2 => ?_, fun h => ?_⟩
  · rw [if_neg (by omega), if_neg (by omega)]
  · rcases h with h | h
    · rw [if_pos h]
    · by_cases h0 : qty ≤ 0
      · rw [if_pos h0]
      · rw [if_neg h0, if_pos (by omega)]

/-- Witness for C1 on the spec's scenario product `{1, "Book", 10.50, 10}`:
`reduceStock 3` succeeds leaving stock `7`, while `reduceStock 11` and
`reduceStock 0` fail leaving the product unchanged. -/
theorem C1_reduceStock_witness :
    Product.reduceStock ⟨1, "Book", 21/2, 10⟩ 3 =
      (true, { (⟨1, "Book", 21/2, 10⟩ : Product) with stock := 10 - 3 }) ∧
    Product.reduceStock ⟨1, "Book", 21/2, 10⟩ 11 =
      (false, ⟨1, "Book", 21/2, 10⟩) ∧
    Product.reduceStock ⟨1, "Book", 21/2, 10⟩ 0 =
      (false, ⟨1, "Book", 21/2, 10⟩) :=
  ⟨(C1_reduceStock_spec _ 3).1 (by decide) (by decide),
   (C1_reduceStock_spec _ 11).2 (Or.inr (by decide)),
   (C1_reduceStock_spec _ 0).2 (Or.inl (by decide))⟩

/-- Claim C5: the adv variants fail exactly when their account identifier is
the empty string; the base-file variants carry no identifier and always
report success. -/
theorem C5_pay_validation (card nm mail : String) (amount : ℚ) :
    (CreditCardPayment.pay ⟨card, nm⟩ amount = false ↔ card = "") ∧
    (PayPalPayment.pay ⟨mail⟩ amount = false ↔ mail = "") ∧
    CardPayment.pay amount = true ∧ PayPalBasicPayment.pay amount = true := by
  refine ⟨?_, ?_, rfl, rfl⟩ <;>
    simp [CreditCardPayment.pay, PayPalPayment.pay, String.isEmpty_iff]

/-- Claim C7: `setPrice`/`setStock` raise the validation error on a negative
argument (the C++ `throw` happens before any assignment, so the object is
unchanged — in this state-passing model the `.error` result carries no new
product), and otherwise set the field to the given value. -/
theorem C7_setters_spec (p : Product) (v : ℚ) (s : Int) :
    (v < 0 → p.setPrice v = .error ⟨"Price can't be negative"⟩) ∧
    (0 ≤ v → p.setPrice v = .ok { p with price := v }) ∧
    (s < 0 → p.setStock s = .error ⟨"Stock can't be negative"⟩) ∧
    (0 ≤ s → p.setStock s = .ok { p with stock := s }) := by
  unfold Product.setPrice Product.setStock
  refine ⟨fun h => ?_, fun h => ?_, fun h => ?_, fun h => ?_⟩
  · rw [if_pos h]
  · rw [if_neg (not_lt.mpr h)]
  · rw [if_pos h]
  · rw [if_neg (by omega)]

/-- Claim C2: checkout on an empty cart or with a failing payment leaves the
whole state — cart items, order counter, and catalog stock — exactly as it
was and produces no order; only on a non-empty cart with a successful payment
is an order (amount `cart.total()`, next sequential id) produced and the
cart cleared, still without touching the catalog. -/
theorem C2_checkout_guarded (st : CheckoutState) (payFn : ℚ → Bool) :
    (st.cart.emptyB = true → checkout st payFn = (none, st)) ∧
    (st.cart.emptyB = false → payFn st.cart.total = false →
      checkout st payFn = (none, st)) ∧
    (st.cart.emptyB = false → payFn st.cart.total = true →
      checkout st payFn =
        (some ⟨st.nextOrderId + 1, st.cart.items, st.cart.total⟩,
         ⟨⟨[]⟩, st.nextOrderId + 1, st.catalog⟩)) := by
  unfold checkout
  refine ⟨fun h1 => ?_, fun h1 h2 => ?_, fun h1 h2 => ?_⟩
  · rw [if_pos h1]
  · rw [if_neg (by simp [h1]), if_neg (by simp [h2])]
  · rw [if_neg (by simp [h1]), if_pos h2]
    rfl

/-- Witness for C2: a singleton-item cart with an always-failing payment is
left intact with no order; the same cart with an always-succeeding payment
yields order number 1 with the cart's total and the cart is cleared; an empty
cart yields no order. -/
theorem C2_checkout_witness :
    checkout ⟨⟨[⟨⟨1, "Book", 21/2, 10⟩, 3⟩]⟩, 0, []⟩ (fun _ => false) =
      (none, ⟨⟨[⟨⟨1, "Book", 21/2, 10⟩, 3⟩]⟩, 0, []⟩) ∧
    checkout ⟨⟨[⟨⟨1, "Book", 21/2, 10⟩, 3⟩]⟩, 0, []⟩ (fun _ => true) =
      (some ⟨1, [⟨⟨1, "Book", 21/2, 10⟩, 3⟩],
              (⟨[⟨⟨1, "Book", 21/2, 10⟩, 3⟩]⟩ : ShoppingCart).total⟩,
       ⟨⟨[]⟩, 1, []⟩) ∧
    checkout ⟨⟨[]⟩, 0, []⟩ (fun _ => true) = (none, ⟨⟨[]⟩, 0, []⟩) :=
  ⟨(C2_checkout_guarded _ _).2.1 rfl rfl,
   (C2_checkout_guarded _ _).2.2 rfl rfl,
   (C2_checkout_guarded _ _).1 rfl⟩

/-- Claim C4: a cart's total is the sum of `price × quantity` over the
product copies stored in its items, and mutating the inventory afterwards —
upserting a product with a new price via `addProduct`, or changing stock via
`reduceStock` — changes neither the stored items nor the total. -/
theorem C4_total_from_copies (s : System) (p : Product) (id qty : Int) :
    s.cart.total =
      (s.cart.items.map (fun ci => ci.product.price * (ci.quantity : ℚ))).sum ∧
    (s.invAddProduct p).cart.items = s.cart.items ∧
    (s.invAddProduct p).cart.total = s.cart.total ∧
    ((s.invReduceStock id qty).2).cart.items = s.cart.items ∧
    ((s.invReduceStock id qty).2).cart.total = s.cart.total :=
  ⟨rfl, rfl, rfl, rfl, rfl⟩

/-- Claim C8: `getProduct` raises `"Product not found"` exactly when no
product with the id is stored, and on success returns a product that is
(field-by-field) one stored in the inventory, bearing the requested id; the
function is `const`, so the inventory itself is untouched. -/
theorem C8_getProduct_spec (inv : Inventory) (id : Int) :
    (inv.getProduct id = .error ⟨"Product not found"⟩ ↔
      inv.hasProduct id = false) ∧
    (∀ p, inv.getProduct id = .ok p → p ∈ inv.products ∧ p.id = id) := by
  unfold Inventory.getProduct Inventory.hasProduct
  constructor
  · rcases hf : inv.products.find? (fun q => q.id == id) with _ | p
    · have hforall := List.find?_eq_none.mp hf
      have hany : inv.products.any (fun q => q.id == id) = false := by
        rw [Bool.eq_false_iff]
        intro hsome
        rcases List.any_eq_true.mp hsome with ⟨x, hx, hpx⟩
        exact hforall x hx hpx
      simp [hf, hany]
    · have hmem := List.mem_of_find?_eq_some hf
      have hpred := List.find?_some hf
      have hany : inv.products.any (fun q => q.id == id) = true :=
        List.any_eq_true.mpr ⟨p, hmem, hpred⟩
      simp [hf, hany]
  · intro p hp
    rcases hf : inv.products.find? (fun q => q.id == id) with _ | q
    · rw [hf] at hp; cases hp
    · rw [hf] at hp
      cases hp
      have hpred := List.find?_some hf
      exact ⟨List.mem_of_find?_eq_some hf, by simpa using hpred⟩

/-- Witness for C8: looking up id 1 in an inventory holding only the scenario
product returns that product (a member, with id 1), and the lookup in the
empty inventory raises the error. -/
theorem C8_getProduct_witness :
    ((⟨1, "Book", 21/2, 10⟩ : Product) ∈
        (⟨[⟨1, "Book", 21/2, 10⟩]⟩ : Inventory).products ∧
      (⟨1, "Book", 21/2, 10⟩ : Product).id = 1) ∧
    (⟨[]⟩ : Inventory).getProduct 1 = .error ⟨"Product not found"⟩ :=
  ⟨(C8_getProduct_spec ⟨[⟨1, "Book", 21/2, 10⟩]⟩ 1).2 _ rfl,
   (C8_getProduct_spec ⟨[]⟩ 1).1.mpr rfl⟩

/-- Claim C6 fails as stated: `addToCart` performs no validation, so adding
with quantity `0` puts an item with non-positive quantity into the cart. -/
theorem C6_counterexample :
    ¬ ∀ ci ∈ (ShoppingCart.addToCart ⟨[]⟩ ⟨1, "Book", 21/2, 10⟩ 0).items,
        0 < ci.quantity := by
  intro h
  have h0 := h ⟨⟨1, "Book", 21/2, 10⟩, 0⟩ (by simp [ShoppingCart.addToCart])
  exact absurd h0 (by decide)

/-- Claim C6 as amended: when every `addToCart`/`addItem` call passes a
positive quantity (as the base `main` guarantees via the `reduceStock` guard),
every item of the resulting cart has positive quantity. -/
theorem C6_cart_quantities_amended (adds : List (Product × Int))
    (h : ∀ pq ∈ adds, 0 < pq.2) :
    ∀ ci ∈ (buildCart adds).items, 0 < ci.quantity := by
  have key : ∀ (l : List (Product × Int)) (c : ShoppingCart),
      (∀ pq ∈ l, 0 < pq.2) → (∀ ci ∈ c.items, 0 < ci.quantity) →
      ∀ ci ∈ (l.foldl (fun c pq => c.addToCart pq.1 pq.2) c).items,
        0 < ci.quantity := by
    intro l
    induction l with
    | nil => intro c _ hc; simpa using hc
    | cons pq rest ih =>
      intro c hl hc
      refine ih _ (fun x hx => hl x (List.mem_cons_of_mem _ hx)) ?_
      intro ci hci
      simp only [ShoppingCart.addToCart, List.mem_append,
        List.mem_singleton] at hci
      rcases hci with hci | hci
      · exact hc ci hci
      · subst hci; exact hl pq (List.mem_cons_self _ _)
  exact key adds ⟨[]⟩ h (by simp)

/-- Witness for C6 (amended): adding the scenario product with quantity 3 to
an empty cart yields an item with positive quantity. -/
theorem C6_cart_quantities_witness :
    0 < (CartItem.mk ⟨1, "Book", 21/2, 10⟩ 3).quantity :=
  C6_cart_quantities_amended [(⟨1, "Book", 21/2, 10⟩, 3)]
    (by intro pq hpq; simp at hpq; subst hpq; decide) _
    (by simp [buildCart, ShoppingCart.addToCart])

lemma consecutiveFrom_lb (n : Nat) :
    ∀ c : Int, ∀ x ∈ consecutiveFrom c n, c ≤ x := by
  induction n with
  | zero => intro c x hx; simp [consecutiveFrom] at hx
  | succ n ih =>
    intro c x hx
    simp only [consecutiveFrom, List.mem_cons] at hx
    rcases hx with rfl | hx
    · exact le_refl x
    · have := ih (c + 1) x hx; omega

lemma consecutiveFrom_pairwise (n : Nat) :
    ∀ c : Int, (consecutiveFrom c n).Pairwise (· < ·) := by
  induction n with
  | zero => intro c; simp [consecutiveFrom]
  | succ n ih =>
    intro c
    simp only [consecutiveFrom, List.pairwise_cons]
    refine ⟨fun x hx => ?_, ih (c + 1)⟩
    have := consecutiveFrom_lb n (c + 1) x hx
    omega

/-- The orders produced by any interaction trace carry consecutive ids
starting one above the incoming counter, and the counter advances by the
number of orders produced. -/
lemma runEvents_orderIds (es : List Event) : ∀ st : CheckoutState,
    (runEvents st es).1.map Order.orderId =
      consecutiveFrom (st.nextOrderId + 1) (runEvents st es).1.length ∧
    (runEvents st es).2.nextOrderId =
      st.nextOrderId + (runEvents st es).1.length := by
  induction es with
  | nil => intro st; simp [runEvents, consecutiveFrom]
  | cons e es ih =>
    intro st
    cases e with
    | addToCart p q =>
      have h := ih { st with cart := st.cart.addToCart p q }
      simpa [runEvents, stepEvent] using h
    | tryCheckout payFn =>
      by_cases h1 : st.cart.emptyB
      · have h := ih st
        simpa [runEvents, stepEvent, checkout, h1] using h
      · by_cases h2 : payFn st.cart.total
        · have h := ih ⟨st.cart.clear, st.nextOrderId + 1, st.catalog⟩
          rcases h with ⟨hids, hcnt⟩
          dsimp only at hids hcnt
          have hstep : runEvents st (Event.tryCheckout payFn :: es) =
              ((⟨st.nextOrderId + 1, st.cart.items,
                  (st.cart.items.map CartItem.subtotal).sum⟩ : Order) ::
                 (runEvents ⟨st.cart.clear, st.nextOrderId + 1, st.catalog⟩ es).1,
               (runEvents ⟨st.cart.clear, st.nextOrderId + 1, st.catalog⟩ es).2) := by
            simp [runEvents, stepEvent, checkout, h1, h2, Order.make,
              ShoppingCart.getItems]
          rw [hstep]
          simp only [List.map_cons, List.length_cons]
          rw [hids, hcnt]
          constructor
          · show _ :: consecutiveFrom (st.nextOrderId + 1 + 1) _ = _
            rfl
          · omega
        · have h := ih st
          simpa [runEvents, stepEvent, checkout, h1, h2] using h

/-- Claim C3: starting from the process-initial counter `0`, the ids of the
orders produced by any interaction trace (cart additions, failed and
successful checkouts in any mixture) are exactly `1, 2, 3, …` in construction
order — in particular they are strictly increasing and the first order gets
id `1`. -/
theorem C3_order_ids_increasing (cart : ShoppingCart) (catalog : List Product)
    (es : List Event) :
    (runEvents ⟨cart, 0, catalog⟩ es).1.map Order.orderId =
      consecutiveFrom 1 (runEvents ⟨cart, 0, catalog⟩ es).1.length ∧
    ((runEvents ⟨cart, 0, catalog⟩ es).1.map Order.orderId).Pairwise (· < ·) ∧
    ∀ o ∈ (runEvents ⟨cart, 0, catalog⟩ es).1.head?, o.orderId = 1 := by
  have h := runEvents_orderIds es ⟨cart, 0, catalog⟩
  rcases h with ⟨hids, _⟩
  norm_num at hids
  refine ⟨hids, ?_, ?_⟩
  · rw [hids]; exact consecutiveFrom_pairwise _ 1
  · intro o ho
    rcases hl : (runEvents ⟨cart, 0, catalog⟩ es).1 with _ | ⟨o1, rest⟩
    · rw [hl] at ho; cases ho
    · rw [hl] at ho hids
      simp only [List.head?_cons, Option.mem_def, Option.some.injEq] at ho
      subst ho
      simp only [List.map_cons, List.length_cons, consecutiveFrom] at hids
      exact (List.cons.injEq _ _ _ _ ▸ hids).1

/-- Witness for C3: a trace with one cart addition, a successful checkout, a
failed checkout and a second successful checkout produces orders with ids
`[1, 2]`. -/
theorem C3_order_ids_witness :
    ((runEvents ⟨⟨[]⟩, 0, []⟩
        [Event.addToCart ⟨1, "Book", 21/2, 10⟩ 3,
         Event.tryCheckout (fun _ => true),
         Event.addToCart ⟨1, "Book", 21/2, 10⟩ 2,
         Event.tryCheckout (fun _ => false),
         Event.tryCheckout (fun _ => true)]).1.map Order.orderId) = [1, 2] := by
  have h := (C3_order_ids_increasing ⟨[]⟩ []
    [Event.addToCart ⟨1, "Book", 21/2, 10⟩ 3,
     Event.tryCheckout (fun _ => true),
     Event.addToCart ⟨1, "Book", 21/2, 10⟩ 2,
     Event.tryCheckout (fun _ => false),
     Event.tryCheckout (fun _ => true)]).1
  exact h.trans (by rfl)

/-- Upserting an existing id rewrites one entry in place, so the stored id
sequence is unchanged; hence `addProduct` preserves distinctness of ids. -/
lemma addProduct_distinctIds (inv : Inventory) (p : Product)
    (h : inv.distinctIds) : (inv.addProduct p).distinctIds := by
  unfold Inventory.distinctIds at h ⊢
  unfold Inventory.addProduct
  by_cases hc : inv.products.any (fun q => q.id == p.id) = true
  · rw [if_pos hc]
    have hmap : (inv.products.map (fun q => if q.id == p.id then p else q)).map
        Product.id = inv.products.map Product.id := by
      rw [List.map_map]
      apply List.map_congr_left
      intro q hq
      by_cases hq2 : q.id = p.id
      · simp [hq2]
      · simp [hq2]
    rw [hmap]
    exact h
  · rw [if_neg hc]
    have hni : p.id ∉ inv.products.map Product.id := by
      intro hmem
      rcases List.mem_map.mp hmem with ⟨q, hq, hid⟩
      exact hc (List.any_eq_true.mpr ⟨q, hq, by simp [hid]⟩)
    simp [List.nodup_append, h, hni]

/-- Every inventory built by `addProduct` calls has pairwise distinct ids. -/
lemma foldl_addProduct_distinctIds (ps : List Product) :
    (ps.foldl Inventory.addProduct ⟨[]⟩).distinctIds := by
  have key : ∀ (l : List Product) (inv : Inventory), inv.distinctIds →
      (l.foldl Inventory.addProduct inv).distinctIds := by
    intro l
    induction l with
    | nil => intro inv h; simpa using h
    | cons p rest ih =>
      intro inv h
      exact ih _ (addProduct_distinctIds inv p h)
  exact key ps ⟨[]⟩ (by simp [Inventory.distinctIds])

/-- Fact: `listAll` emits the stored products (`std::sort` permutes in place). -/
lemma listAll_perm (inv : Inventory) : List.Perm inv.listAll inv.products :=
  List.mergeSort_perm _ _

/-- Fact: `listAll` is sorted for the comparator's reflexive closure `id ≤ id`. -/
lemma listAll_pairwise_le (inv : Inventory) :
    inv.listAll.Pairwise (fun a b => a.id ≤ b.id) := by
  have h := @List.sorted_mergeSort Product (fun a b => decide (a.id ≤ b.id))
    (fun a b c h1 h2 => by
      simp only [decide_eq_true_eq] at h1 h2 ⊢; omega)
    (fun a b => by
      simp only [Bool.or_eq_true, decide_eq_true_eq]; omega)
    inv.products
  exact h.imp (fun hab => by simpa using hab)

/-- On an inventory with distinct ids, `listAll` is strictly sorted. -/
lemma listAll_pairwise_lt (inv : Inventory) (h : inv.distinctIds) :
    inv.listAll.Pairwise (fun a b => a.id < b.id) := by
  have hle := listAll_pairwise_le inv
  have hnd : (inv.listAll.map Product.id).Nodup :=
    (((listAll_perm inv).map Product.id).nodup_iff).mpr h
  have hne : inv.listAll.Pairwise (fun a b => a.id ≠ b.id) :=
    List.pairwise_map.mp hnd
  exact (hle.and hne).imp (fun hab => lt_of_le_of_ne hab.1 hab.2)

/-- Inventories holding the same products (in any internal order, with
distinct ids) produce the same `listAll` output. -/
lemma listAll_eq_of_perm (inv1 inv2 : Inventory) (h1 : inv1.distinctIds)
    (hp : List.Perm inv1.products inv2.products) :
    inv1.listAll = inv2.listAll := by
  haveI : IsAntisymm Product (fun a b => a.id < b.id) :=
    ⟨fun a b hab hba => absurd (lt_trans hab hba) (lt_irrefl _)⟩
  have h2 : inv2.distinctIds := by
    unfold Inventory.distinctIds at h1 ⊢
    exact ((hp.map Product.id).nodup_iff).mp h1
  have hs1 : List.Sorted (fun a b : Product => a.id < b.id) inv1.listAll :=
    listAll_pairwise_lt inv1 h1
  have hs2 : List.Sorted (fun a b : Product => a.id < b.id) inv2.listAll :=
    listAll_pairwise_lt inv2 h2
  exact List.eq_of_perm_of_sorted
    (((listAll_perm inv1).trans hp).trans (listAll_perm inv2).symm) hs1 hs2

/-- Claim C9: for an inventory reachable by any sequence of `addProduct`
calls, whatever order the `unordered_map` stores the products in (any
permutation `stored` of the reachable contents), `listAll` returns the
stored products sorted by strictly ascending id, and the output does not
depend on that storage order. -/
theorem C9_listAll_sorted (ps : List Product) (stored : List Product)
    (hperm : List.Perm stored (ps.foldl Inventory.addProduct ⟨[]⟩).products) :
    (Inventory.mk stored).listAll.Pairwise (fun a b => a.id < b.id) ∧
    List.Perm (Inventory.mk stored).listAll stored ∧
    (Inventory.mk stored).listAll =
      (ps.foldl Inventory.addProduct ⟨[]⟩).listAll := by
  have hd : (ps.foldl Inventory.addProduct ⟨[]⟩).distinctIds :=
    foldl_addProduct_distinctIds ps
  have hd2 : (Inventory.mk stored).distinctIds := by
    unfold Inventory.distinctIds at hd ⊢
    exact ((hperm.map Product.id).nodup_iff).mpr hd
  exact ⟨listAll_pairwise_lt _ hd2, listAll_perm _,
    listAll_eq_of_perm _ _ hd2 hperm⟩

/-- Witness for C9: the adv `main`'s two products inserted in descending-id
order, with the storage list in the opposite order, still list ascending and
identically. -/
theorem C9_listAll_witness :
    (Inventory.mk [⟨1, "Mouse", 15, 10⟩, ⟨2, "Keyboard", 25, 5⟩]).listAll.Pairwise
        (fun a b => a.id < b.id) ∧
    List.Perm (Inventory.mk [⟨1, "Mouse", 15, 10⟩, ⟨2, "Keyboard", 25, 5⟩]).listAll
      [⟨1, "Mouse", 15, 10⟩, ⟨2, "Keyboard", 25, 5⟩] ∧
    (Inventory.mk [⟨1, "Mouse", 15, 10⟩, ⟨2, "Keyboard", 25, 5⟩]).listAll =
      ([⟨2, "Keyboard", 25, 5⟩, ⟨1, "Mouse", 15, 10⟩].foldl
          Inventory.addProduct ⟨[]⟩).listAll :=
  C9_listAll_sorted [⟨2, "Keyboard", 25, 5⟩, ⟨1, "Mouse", 15, 10⟩]
    [⟨1, "Mouse", 15, 10⟩, ⟨2, "Keyboard", 25, 5⟩] (by decide)

/-- Witness for C7: `setPrice (-1)` and `setStock (-1)` fail on the scenario
product, while `setPrice 8` and `setStock 4` update the field. -/
theorem C7_setters_witness :
    Product.setPrice ⟨1, "Book", 21/2, 10⟩ (-1) =
      .error ⟨"Price can't be negative"⟩ ∧
    Product.setPrice ⟨1, "Book", 21/2, 10⟩ 8 = .ok ⟨1, "Book", 8, 10⟩ ∧
    Product.setStock ⟨1, "Book", 21/2, 10⟩ (-1) =
      .error ⟨"Stock can't be negative"⟩ ∧
    Product.setStock ⟨1, "Book", 21/2, 10⟩ 4 = .ok ⟨1, "Book", 21/2, 4⟩ :=
  ⟨(C7_setters_spec _ (-1) 0).1 (by decide),
   (C7_setters_spec _ 8 0).2.1 (by decide),
   (C7_setters_spec _ 0 (-1)).2.2.1 (by decide),
   (C7_setters_spec _ 0 4).2.2.2 (by decide)⟩

end Shop
